import Mathlib

/-!
Shallow embedding of the gateway request plane of the chrisIM_rust repository:
circuit breaker, circuit-breaker middleware, route matching, path rewrite,
rate limiting, body buffering, authentication and role authorization.

Modelling conventions:
* time is natural-number seconds; `Instant::elapsed` is truncated
  (saturating) subtraction, matching Rust's saturating monotonic clock;
* Rust `&str` operations are modelled through the character list of the
  Lean string: `starts_with` is `List.isPrefixOf` on the characters,
  `s[p.len()..]` is `List.drop` of the character length (identical for the
  ASCII paths and route tables the gateway handles);
* `async` side effects (crypto verification, network calls, the clock) become
  explicit function parameters or explicit `now` arguments;
* fallible Rust code returning `Result` becomes `Except`.
-/

namespace Gateway

/-! ## String primitives used by the Rust source -/

/-- Rust `s.starts_with(p)` for string slices. -/
def strStartsWith (s p : String) : Bool := p.toList.isPrefixOf s.toList

/-- Rust byte/char slicing `s[n..]` (ASCII: bytes = chars). -/
def strDrop (s : String) (n : Nat) : String := ⟨s.toList.drop n⟩

/-- Rust `s.len()` (ASCII: bytes = chars). -/
def strLen (s : String) : Nat := s.toList.length

/-! ## Circuit breaker — gateway-service/src/circuit_breaker/mod.rs -/

/-- The three breaker states (`CircuitBreakerState` in the source). -/
inductive CircuitBreakerState
  | Closed
  | Open
  | HalfOpen
deriving DecidableEq

/-- State of one `CircuitBreaker`. The `Arc<RwLock<..>>` cells become plain
fields; `reset_timeout` is in seconds and `last_failure_time` is an absolute
instant in seconds. -/
structure CircuitBreaker where
  state : CircuitBreakerState
  failure_count : Nat
  failure_threshold : Nat
  reset_timeout : Nat
  last_failure_time : Nat
  service_id : String
deriving DecidableEq

namespace CircuitBreaker

/-- `CircuitBreaker::new`. The source initialises `failure_count` to the
literal `5` (with a TODO comment), and `last_failure_time` to `Instant::now()`,
here the parameter `now`. -/
def new (service_id : String) (failure_threshold reset_timeout_secs now : Nat) :
    CircuitBreaker :=
  { state := CircuitBreakerState.Closed
    failure_count := 5
    failure_threshold := failure_threshold
    reset_timeout := reset_timeout_secs
    last_failure_time := now
    service_id := service_id }

/-- `CircuitBreaker::record_success`. -/
def record_success (cb : CircuitBreaker) : CircuitBreaker :=
  match cb.state with
  | CircuitBreakerState.Closed =>
      { cb with failure_count := 0 }
  | CircuitBreakerState.HalfOpen =>
      { cb with state := CircuitBreakerState.Closed, failure_count := 0 }
  | CircuitBreakerState.Open => cb

/-- `CircuitBreaker::record_failure`, with `Instant::now()` passed as `now`. -/
def record_failure (cb : CircuitBreaker) (now : Nat) : CircuitBreaker :=
  match cb.state with
  | CircuitBreakerState.Closed =>
      let fc := cb.failure_count + 1
      if fc ≥ cb.failure_threshold then
        { cb with state := CircuitBreakerState.Open, failure_count := fc,
                  last_failure_time := now }
      else
        { cb with failure_count := fc }
  | CircuitBreakerState.HalfOpen =>
      { cb with state := CircuitBreakerState.Open, last_failure_time := now }
  | CircuitBreakerState.Open =>
      { cb with last_failure_time := now }

/-- `CircuitBreaker::check`, with `Instant::now()` passed as `now`; returns
the allow decision together with the updated breaker.
`last_failure.elapsed() >= self.reset_timeout` is `now - last_failure_time ≥
reset_timeout` with truncated subtraction. -/
def check (cb : CircuitBreaker) (now : Nat) : Bool × CircuitBreaker :=
  match cb.state with
  | CircuitBreakerState.Open =>
      if now - cb.last_failure_time ≥ cb.reset_timeout then
        (true, { cb with state := CircuitBreakerState.HalfOpen })
      else
        (false, cb)
  | CircuitBreakerState.HalfOpen => (true, cb)
  | CircuitBreakerState.Closed => (true, cb)

end CircuitBreaker

/-- Concrete Open breaker used to witness C8. -/
def cbOpenExample : CircuitBreaker :=
  { state := CircuitBreakerState.Open
    failure_count := 5
    failure_threshold := 5
    reset_timeout := 30
    last_failure_time := 10
    service_id := "user-service" }

/-! ## Circuit-breaker middleware response handling
    (`CircuitBreakerMiddleware::call`, same file) -/

/-- Outcome of the inner `svc.call(req).await`: either a response with an HTTP
status code, or a transport-level error (`Err(err)`). -/
inductive UpstreamResult
  | ok (status : Nat)
  | err
deriving DecidableEq

/-- `StatusCode::is_success()`: 2xx. -/
def isSuccessStatus (s : Nat) : Bool := decide (200 ≤ s ∧ s < 300)

/-- `StatusCode::is_server_error()`: 5xx. -/
def isServerErrorStatus (s : Nat) : Bool := decide (500 ≤ s ∧ s < 600)

/-- What the middleware records on the breaker for one upstream outcome. -/
inductive BreakerRecord
  | success
  | failure
  | nothing
deriving DecidableEq

/-- The match arm of `CircuitBreakerMiddleware::call` after the inner call:
`record_success` on `is_success()`, else `record_failure` only when
`is_server_error()`; a transport error always records a failure. -/
def middlewareRecord : UpstreamResult → BreakerRecord
  | UpstreamResult.ok s =>
      if isSuccessStatus s then BreakerRecord.success
      else if isServerErrorStatus s then BreakerRecord.failure
      else BreakerRecord.nothing
  | UpstreamResult.err => BreakerRecord.failure

/-! ## Route rules and route selection
    (gateway-service/src/config/routes_config.rs and
     api-gateway/src/proxy/service_proxy.rs) -/

/-- `PathRewrite`. Field `replacePre` models `replace_prefix`. -/
structure PathRewrite where
  replacePre : Option String
  regex_match : Option String
  regex_replace : Option String
deriving DecidableEq

/-- `ServiceType` from routes_config.rs. -/
inductive ServiceType
  | Auth
  | User
  | Friend
  | Group
  | Chat
  | Static
  | HttpService (name : String)
  | GrpcService (name : String)
deriving DecidableEq

/-- `RouteRule` from routes_config.rs. Field `pathPre` models `path_prefix`;
`rewrite_headers` (a `HashMap`) becomes an association list. -/
structure RouteRule where
  id : String
  name : String
  pathPre : String
  service_type : ServiceType
  require_auth : Bool
  methods : List String
  rewrite_headers : List (String × String)
  path_rewrite : Option PathRewrite
deriving DecidableEq

/-- The route lookup in `ServiceProxy::forward_http_request`:
`config.routes.routes.iter().find(|r| path.starts_with(&r.path_prefix))`. -/
def findRoute (routes : List RouteRule) (path : String) : Option RouteRule :=
  routes.find? (fun r => strStartsWith path r.pathPre)

/-- Helper to build a route rule that only fixes id and path prefix, as the
remaining fields play no role in route selection. -/
def mkRoute (id pathPre : String) : RouteRule :=
  { id := id
    name := id
    pathPre := pathPre
    service_type := ServiceType.Auth
    require_auth := false
    methods := []
    rewrite_headers := []
    path_rewrite := none }

/-! ## Path rewrite — gateway-service/src/proxy/utils.rs -/

/-- `apply_path_rewrite`. The regex engine of the external `regex` crate is
taken as the function parameter `regexReplaceAll` (global replacement); the
source applies it only when both `regex_match` and `regex_replace` are set,
and the `if replaced != result` guard there is semantically the identity.
The prefix branch is
`format!("{}{}", replace_prefix, &path[path_prefix.len()..])` guarded by
`path.starts_with(path_prefix)`. -/
def apply_path_rewrite (regexReplaceAll : String → String → String → String)
    (path pathPre : String) (rewrite : PathRewrite) : String :=
  let result := path
  let result :=
    match rewrite.replacePre with
    | some rp =>
        if strStartsWith path pathPre then rp ++ strDrop path (strLen pathPre)
        else result
    | none => result
  match rewrite.regex_match, rewrite.regex_replace with
  | some rm, some rr => regexReplaceAll rm rr result
  | _, _ => result

/-! ## Rate limiting — api-gateway/src/rate_limit/mod.rs -/

/-- Result of one `RateLimiter::check()` (governor crate): `Ok(())`, or
`Err(not_until)` carrying `wait_time_from(now).as_secs()` in whole seconds.
The source's `else { Ok(()) }` branches for absent path/IP limiters are the
`allow` value as well. -/
inductive CheckOutcome
  | allow
  | deny (waitSecs : Nat)
deriving DecidableEq

/-- `Result::is_err()` on a check outcome. -/
def CheckOutcome.isErr : CheckOutcome → Bool
  | CheckOutcome.allow => false
  | CheckOutcome.deny _ => true

/-- Rust `Iterator::max_by_key`, which keeps the last maximal element. -/
def maxByKeyLast {A : Type} (key : A → Nat) : List A → Option A
  | [] => none
  | x :: xs =>
      match maxByKeyLast key xs with
      | none => some x
      | some y => if key y < key x then some x else some y

/-- `RateLimitLayer::get_path_limiter`: among the path rules whose prefix
matches the path, take the one with the longest prefix
(`filter(starts_with).max_by_key(prefix.len())`). The limiter value is kept
paired with its prefix. -/
def get_path_limiter_entry {A : Type} (pathLimiters : List (String × A))
    (path : String) : Option (String × A) :=
  maxByKeyLast (fun p => strLen p.1)
    (pathLimiters.filter (fun p => strStartsWith path p.1))

/-- One pass through `RateLimitService::call`, given the outcomes of the three
checks, which the source has all computed before branching. `none` means the
request is forwarded to the inner service; `some (status, retryAfter)` means
the middleware short-circuits with that status and the `retry_after` value it
reports. The `wait_time` accumulation mirrors the source's three
`if let Err(wait)` blocks starting from `0`. -/
def rate_limit_call (global_check path_check ip_check : CheckOutcome) :
    Option (Nat × Nat) :=
  if global_check.isErr || path_check.isErr || ip_check.isErr then
    let wait_time : Nat := 0
    let wait_time := match global_check with
      | CheckOutcome.deny w => max wait_time w
      | CheckOutcome.allow => wait_time
    let wait_time := match path_check with
      | CheckOutcome.deny w => max wait_time w
      | CheckOutcome.allow => wait_time
    let wait_time := match ip_check with
      | CheckOutcome.deny w => max wait_time w
      | CheckOutcome.allow => wait_time
    some (429, wait_time)
  else
    none

/-- Spec-side view: the wait times of exactly the limiters that denied. -/
def deniedWaits (global_check path_check ip_check : CheckOutcome) : List Nat :=
  [global_check, path_check, ip_check].filterMap
    (fun c => match c with
      | CheckOutcome.deny w => some w
      | CheckOutcome.allow => none)

/-! ## Request body buffering — api-gateway/src/proxy/service_proxy.rs -/

/-- `axum::body::to_bytes(body, limit)`: the collected body bytes, or an error
when the body is longer than `limit` bytes. -/
def to_bytes (limit : Nat) (body : List Nat) : Except Unit (List Nat) :=
  if body.length ≤ limit then Except.ok body else Except.error ()

/-- The body-read step of `ServiceProxy::forward_http_request`:
`axum::body::to_bytes(body, 1024 * 1024 * 10).await.unwrap_or_default()`.
The function then always builds and sends the upstream request with these
bytes; `forward_http_request` has no 413 branch at all. -/
def forward_http_request_body (body : List Nat) : List Nat :=
  match to_bytes (1024 * 1024 * 10) body with
  | Except.ok b => b
  | Except.error _ => []

/-! ## Errors — common/src/error.rs -/

/-- The `Error` variants reachable from the gateway auth path, together with
the ones named by the claims. -/
inductive Error
  | Internal (msg : String)
  | Unauthorized
  | TokenExpired
  | InvalidToken
  | InvalidIssuer
  | InsufficientPermissions
  | InvalidApiKey
  | ApiKeyExpired
  | OAuth2Error (msg : String)
deriving DecidableEq

/-- The status codes assigned by `impl IntoResponse for Error` to the variants
it handles (the remaining variants hit a `todo!()`). -/
def into_response_status : Error → Nat
  | Error.Unauthorized => 401
  | Error.TokenExpired => 401
  | Error.InvalidToken => 401
  | Error.InvalidIssuer => 401
  | Error.InsufficientPermissions => 403
  | Error.InvalidApiKey => 401
  | Error.ApiKeyExpired => 401
  | Error.OAuth2Error _ => 401
  | Error.Internal _ => 500

/-! ## Authentication — api-gateway/src/auth/ -/

/-- `UserInfo` from api-gateway/src/auth/jwt.rs; the `extra` `HashMap` becomes
an association list. -/
structure UserInfo where
  user_id : Int
  username : String
  roles : List String
  extra : List (String × String)
deriving DecidableEq

/-- `ApiKeyInfo` from api-gateway/src/config/auth_config.rs. -/
structure ApiKeyInfo where
  name : String
  user_id : Option Int
  permissions : List String
  enabled : Bool
  expires_at : Option String
deriving DecidableEq

/-- `JwtConfig`. Field `headerPre` models `header_prefix`. -/
structure JwtConfig where
  enabled : Bool
  secret : String
  issuer : String
  expiry_seconds : Nat
  refresh_expiry_seconds : Nat
  verify_issuer : Bool
  allowed_issuers : List String
  header_name : String
  headerPre : String
deriving DecidableEq

/-- `ApiKeyConfig`; the `api_keys` `HashMap` becomes an association list. -/
structure ApiKeyConfig where
  enabled : Bool
  header_name : String
  api_keys : List (String × ApiKeyInfo)
deriving DecidableEq

/-- `OAuth2Config`. -/
structure OAuth2Config where
  enabled : Bool
  client_id : String
  client_secret : String
  auth_url : String
  token_url : String
  redirect_url : String
  scope : String
deriving DecidableEq

/-- `AuthConfig`. -/
structure AuthConfig where
  jwt : JwtConfig
  api_key : ApiKeyConfig
  oauth2 : OAuth2Config
  ip_whitelist : List String
  path_whitelist : List String
deriving DecidableEq

/-- `headers.get(name)` on a request header map. -/
def headerGet (headers : List (String × String)) (name : String) : Option String :=
  (headers.find? (fun h => h.1 == name)).map (fun h => h.2)

/-- `jwt::extract_token`: read the configured header and strip the configured
leading `header_prefix`. -/
def extract_token (headers : List (String × String))
    (header_name headerPre : String) : Option String :=
  match headerGet headers header_name with
  | some v =>
      if strStartsWith v headerPre then some (strDrop v (strLen headerPre))
      else none
  | none => none

/-- `oauth2::extract_oauth_token`: `Authorization: Bearer ...`, else the
`access_token=` query parameter (`query.split('&')` then
`find(starts_with "access_token=")` then drop 13 bytes). -/
def extract_oauth_token (headers : List (String × String))
    (query : Option String) : Option String :=
  match headerGet headers "Authorization" with
  | some v =>
      if strStartsWith v "Bearer " then some (strDrop v 7)
      else
        (query.bind (fun q =>
          (((q.toList.splitOn '&').map (fun l => (⟨l⟩ : String))).find?
              (fun pair => strStartsWith pair "access_token=")).map
            (fun pair => strDrop pair 13)))
  | none =>
      query.bind (fun q =>
        (((q.toList.splitOn '&').map (fun l => (⟨l⟩ : String))).find?
            (fun pair => strStartsWith pair "access_token=")).map
          (fun pair => strDrop pair 13))

/-- `HashMap::get` on the api-key table. -/
def apiKeysGet (table : List (String × ApiKeyInfo)) (key : String) :
    Option ApiKeyInfo :=
  (table.find? (fun e => e.1 == key)).map (fun e => e.2)

/-- The tail of the API-key branch of `authenticate` after the key was found
and `enabled` checked: expiry check, then `user_id` lookup, then the
principal. `parse_rfc3339` stands for `chrono::DateTime::parse_from_rfc3339`
(`none` for a parse error) and `now` for `chrono::Utc::now()`, both as
timestamps. -/
def apiKeyBranchTail (parse_rfc3339 : String → Option Int) (now : Int)
    (info : ApiKeyInfo) : Except Error (Option UserInfo) :=
  let afterExpiry : Except Error Unit :=
    match info.expires_at with
    | some ea =>
        match parse_rfc3339 ea with
        | some expiry_time =>
            if expiry_time < now then Except.error Error.ApiKeyExpired
            else Except.ok ()
        | none => Except.error (Error.Internal "invalid api key expiry format")
    | none => Except.ok ()
  match afterExpiry with
  | Except.error e => Except.error e
  | Except.ok _ =>
      match info.user_id with
      | some id =>
          Except.ok (some { user_id := id, username := info.name,
                            roles := info.permissions, extra := [] })
      | none => Except.error (Error.Internal "api key has no user id")

/-- The unified entry `authenticate` of api-gateway/src/auth/mod.rs, as the
decision it takes for one request: `Except.ok p` means the request is
forwarded to `next` with principal `p` attached (`none` = no principal),
`Except.error e` means the middleware returns the error.

`verify_token` stands for the async `jwt::verify_token`; `client_ip` for the
value of `get_client_ip(&request)`; `query` for the request's query string. -/
def authenticate (cfg : AuthConfig)
    (verify_token : String → Except Error UserInfo)
    (parse_rfc3339 : String → Option Int) (now : Int)
    (path : String) (client_ip : Option String)
    (headers : List (String × String)) (query : Option String) :
    Except Error (Option UserInfo) :=
  if cfg.path_whitelist.any (fun p => strStartsWith path p) then
    Except.ok none
  else if (match client_ip with
           | some ip => cfg.ip_whitelist.contains ip
           | none => false) then
    Except.ok none
  else if cfg.jwt.enabled then
    match extract_token headers cfg.jwt.header_name cfg.jwt.headerPre with
    | none => Except.error Error.Unauthorized
    | some token =>
        match verify_token token with
        | Except.error err => Except.error err
        | Except.ok user_info => Except.ok (some user_info)
  else if cfg.api_key.enabled then
    match headerGet headers cfg.api_key.header_name with
    | none => Except.error Error.InvalidApiKey
    | some api_key =>
        match apiKeysGet cfg.api_key.api_keys api_key with
        | none => Except.error Error.InvalidApiKey
        | some info =>
            if info.enabled = false then Except.error Error.InvalidApiKey
            else apiKeyBranchTail parse_rfc3339 now info
  else if cfg.oauth2.enabled then
    match extract_oauth_token headers query with
    | none => Except.error Error.Unauthorized
    | some _ =>
        Except.ok (some { user_id := 10000, username := "oauth_user",
                          roles := ["user"], extra := [] })
  else
    Except.error Error.Unauthorized

/-- Concrete configuration with all three auth schemes disabled, used for C9:
the default header conventions, an empty key table, and the default path
whitelist of the source's `AuthConfig::default()`. -/
def cfgNoAuthScheme : AuthConfig :=
  { jwt := { enabled := false
             secret := "change_this_to_a_secure_random_string"
             issuer := "api-gateway"
             expiry_seconds := 86400
             refresh_expiry_seconds := 604800
             verify_issuer := false
             allowed_issuers := []
             header_name := "Authorization"
             headerPre := "Bearer " }
    api_key := { enabled := false
                 header_name := "X-API-Key"
                 api_keys := [] }
    oauth2 := { enabled := false
                client_id := ""
                client_secret := ""
                auth_url := ""
                token_url := ""
                redirect_url := ""
                scope := "" }
    ip_whitelist := ["127.0.0.1", "::1"]
    path_whitelist := ["/api/health", "/api/auth/login", "/api/auth/register",
                       "/metrics"] }

/-! ## Role authorization — api-gateway/src/auth/middleware.rs -/

/-- `has_required_roles`: an `admin`/`ADMIN` role passes everything, otherwise
any one required role suffices. -/
def has_required_roles (user_roles required_roles : List String) : Bool :=
  if user_roles.any (fun r => r == "admin" || r == "ADMIN") then true
  else required_roles.any (fun req => user_roles.contains req)

/-- `authorize`: the decision of the role middleware. `Except.ok ()` means the
request is forwarded to `next`; `user` is the `UserInfo` request extension. -/
def authorize (user : Option UserInfo) (required_roles : List String) :
    Except Error Unit :=
  match user with
  | none => Except.error Error.Unauthorized
  | some u =>
      if !required_roles.isEmpty && !has_required_roles u.roles required_roles then
        Except.error Error.InsufficientPermissions
      else
        Except.ok ()

end Gateway

/-! # Theorems -/

namespace Gateway

/-- C1: the code contradicts the spec at creation time. A freshly created
breaker has `failure_count = 5` (the source's `CircuitBreaker::new` stores the
literal 5, not 0), so with threshold 5 a single `record_failure` already takes
the breaker from Closed to Open: it does not take 5 consecutive failures. -/
theorem c1_new_breaker_opens_after_one_failure :
    (CircuitBreaker.new "user-service" 5 30 0).failure_count = 5 ∧
    ((CircuitBreaker.new "user-service" 5 30 0).record_failure 0).state =
      CircuitBreakerState.Open ∧
    ((CircuitBreaker.new "user-service" 5 30 0).record_success).failure_count = 0 := by
  decide

/-- C8: a breaker in Open denies the call unless `now - last_failure_time ≥
reset_timeout`; exactly when that bound is reached, `check` itself transitions
the breaker to HalfOpen and allows the call, and when the bound is not reached
the breaker is left unchanged. -/
theorem c8_open_reset_law (cb : CircuitBreaker) (now : Nat)
    (h : cb.state = CircuitBreakerState.Open) :
    ((cb.check now).1 = true ↔ cb.reset_timeout ≤ now - cb.last_failure_time) ∧
    ((cb.check now).1 = true →
      (cb.check now).2.state = CircuitBreakerState.HalfOpen) ∧
    ((cb.check now).1 = false → (cb.check now).2 = cb) := by
  unfold CircuitBreaker.check
  rw [h]
  by_cases hge : cb.reset_timeout ≤ now - cb.last_failure_time
  · simp [hge]
  · simp [hge]

/-- Witness for C8 at a concrete Open breaker and a concrete instant. -/
theorem c8_open_reset_law_witness :
    ((cbOpenExample.check 40).1 = true ↔
       cbOpenExample.reset_timeout ≤ 40 - cbOpenExample.last_failure_time) ∧
    ((cbOpenExample.check 40).1 = true →
      (cbOpenExample.check 40).2.state = CircuitBreakerState.HalfOpen) ∧
    ((cbOpenExample.check 40).1 = false → (cbOpenExample.check 40).2 = cbOpenExample) :=
  c8_open_reset_law cbOpenExample 40 rfl

/-- C2 counterexample: a 404 upstream response records neither a success nor
a failure on the breaker — the claim says every 4xx records a success. -/
theorem c2_counterexample_404_records_nothing :
    middlewareRecord (UpstreamResult.ok 404) = BreakerRecord.nothing ∧
    middlewareRecord (UpstreamResult.ok 404) ≠ BreakerRecord.success := by
  decide

/-- C2 amended: the middleware records a failure on a transport error and on
every 5xx status, records a success on every 2xx status, and records nothing
at all on 3xx and 4xx statuses. -/
theorem c2_breaker_recording (s : Nat) :
    middlewareRecord UpstreamResult.err = BreakerRecord.failure ∧
    (200 ≤ s ∧ s < 300 → middlewareRecord (UpstreamResult.ok s) = BreakerRecord.success) ∧
    (500 ≤ s ∧ s < 600 → middlewareRecord (UpstreamResult.ok s) = BreakerRecord.failure) ∧
    (300 ≤ s ∧ s < 500 → middlewareRecord (UpstreamResult.ok s) = BreakerRecord.nothing) := by
  refine ⟨rfl, ?_, ?_, ?_⟩
  · intro h
    simp [middlewareRecord, isSuccessStatus, h.1, h.2]
  · intro h
    have h1 : ¬(200 ≤ s ∧ s < 300) := by omega
    simp [middlewareRecord, isSuccessStatus, isServerErrorStatus, h1, h.1, h.2]
  · intro h
    have h1 : ¬(200 ≤ s ∧ s < 300) := by omega
    have h2 : ¬(500 ≤ s ∧ s < 600) := by omega
    simp [middlewareRecord, isSuccessStatus, isServerErrorStatus, h1, h2]

/-- Witness for C2 at concrete statuses 204, 503 and 404. -/
theorem c2_breaker_recording_witness :
    middlewareRecord (UpstreamResult.ok 204) = BreakerRecord.success ∧
    middlewareRecord (UpstreamResult.ok 503) = BreakerRecord.failure ∧
    middlewareRecord (UpstreamResult.ok 404) = BreakerRecord.nothing :=
  ⟨(c2_breaker_recording 204).2.1 (by decide),
   (c2_breaker_recording 503).2.2.1 (by decide),
   (c2_breaker_recording 404).2.2.2 (by decide)⟩

/-- C3 counterexample: with the route table `[(r1, "/api"), (r2, "/api/auth")]`
and path `"/api/auth/ping"`, both prefixes match and `"/api/auth"` is strictly
longer, yet the proxy's `find` selects `r1` — the earlier, shorter rule — so
the longest-prefix rule does not win. -/
theorem c3_counterexample_earlier_shorter_rule_wins :
    strStartsWith "/api/auth/ping" "/api/auth" = true ∧
    strLen "/api" < strLen "/api/auth" ∧
    (findRoute [mkRoute "r1" "/api", mkRoute "r2" "/api/auth"]
        "/api/auth/ping").map RouteRule.id = some "r1" := by
  decide

/-- C3 amended: the rule used for forwarding is the first rule in declaration
order whose path prefix is a prefix of the request path; earlier declaration
wins regardless of prefix length. -/
theorem c3_first_declared_matching_rule_wins (before after : List RouteRule)
    (r : RouteRule) (path : String)
    (hb : ∀ r2 ∈ before, strStartsWith path r2.pathPre = false)
    (hr : strStartsWith path r.pathPre = true) :
    findRoute (before ++ r :: after) path = some r := by
  induction before with
  | nil =>
      unfold findRoute
      rw [List.nil_append]
      exact List.find?_cons_of_pos after hr
  | cons a as ih =>
      unfold findRoute at ih ⊢
      rw [List.cons_append, List.find?_cons_of_neg]
      · exact ih (fun r2 hm => hb r2 (List.mem_cons_of_mem a hm))
      · simp [hb a (List.mem_cons_self a as)]

/-- Witness for C3 at a concrete route table: a non-matching rule first, then
the matching rule `r2`, then another matching rule `r1`. -/
theorem c3_first_declared_matching_rule_wins_witness :
    findRoute ([mkRoute "r0" "/q"] ++ mkRoute "r2" "/api/auth" ::
        [mkRoute "r1" "/api"]) "/api/auth/ping" = some (mkRoute "r2" "/api/auth") :=
  c3_first_declared_matching_rule_wins [mkRoute "r0" "/q"] [mkRoute "r1" "/api"]
    (mkRoute "r2" "/api/auth") "/api/auth/ping" (by decide) (by decide)

/-- C4: at the spec's own scenario S6, the rule
`(pathPrefix "/api/auth", replacePrefix "/")` applied to
`"/api/auth/ping?x=1"` produces `"//ping?x=1"` — a doubled slash — and not the
expected `"/ping?x=1"`: the source concatenates `replace_prefix` with the
remainder `"/ping?x=1"`, which itself starts with a slash. The regex engine
argument is irrelevant here since no regex rewrite is configured. -/
theorem c4_rewrite_example_produces_double_slash :
    apply_path_rewrite (fun _ _ s => s) "/api/auth/ping?x=1" "/api/auth"
      { replacePre := some "/", regex_match := none, regex_replace := none } =
      "//ping?x=1" ∧
    "//ping?x=1" ≠ "/ping?x=1" := by
  decide

/-- `maxByKeyLast` never returns `none` on a non-empty list. -/
theorem maxByKeyLast_cons_ne_none {A : Type} (key : A → Nat) (a : A) (l : List A) :
    maxByKeyLast key (a :: l) ≠ none := by
  unfold maxByKeyLast
  cases maxByKeyLast key l with
  | none => simp
  | some y => by_cases h : key y < key a <;> simp [h]

/-- Any element returned by `maxByKeyLast` is in the list. -/
theorem maxByKeyLast_mem {A : Type} (key : A → Nat) (l : List A) (x : A)
    (h : maxByKeyLast key l = some x) : x ∈ l := by
  induction l with
  | nil => simp [maxByKeyLast] at h
  | cons a as ih =>
      unfold maxByKeyLast at h
      cases hm : maxByKeyLast key as with
      | none =>
          rw [hm] at h
          simp at h
          simp [h]
      | some y =>
          rw [hm] at h
          by_cases hk : key y < key x
          · by_cases hxy : key y < key a
            · simp [hxy] at h
              simp [h]
            · simp [hxy] at h
              subst h
              exact List.mem_cons_of_mem a (ih hm)
          · by_cases hxy : key y < key a
            · simp [hxy] at h
              simp [h]
            · simp [hxy] at h
              subst h
              exact List.mem_cons_of_mem a (ih hm)

/-- The element returned by `maxByKeyLast` has a maximal key. -/
theorem maxByKeyLast_is_max {A : Type} (key : A → Nat) (l : List A) (x : A)
    (h : maxByKeyLast key l = some x) : ∀ y ∈ l, key y ≤ key x := by
  induction l generalizing x with
  | nil => simp [maxByKeyLast] at h
  | cons a as ih =>
      intro y hy
      unfold maxByKeyLast at h
      cases hm : maxByKeyLast key as with
      | none =>
          rw [hm] at h
          simp at h
          subst h
          cases List.mem_cons.mp hy with
          | inl hya => rw [hya]
          | inr hyas =>
              cases as with
              | nil => simp at hyas
              | cons b bs => exact absurd hm (maxByKeyLast_cons_ne_none key b bs)
      | some z =>
          rw [hm] at h
          cases List.mem_cons.mp hy with
          | inl hya =>
              subst hya
              by_cases hza : key z < key y
              · simp [hza] at h
                rw [h]
              · simp [hza] at h
                subst h
                omega
          | inr hyas =>
              have hz := ih z hm y hyas
              by_cases hza : key z < key a
              · simp [hza] at h
                subst h
                omega
              · simp [hza] at h
                subst h
                exact hz

/-- C5: the request passes the rate-limit middleware iff no applicable limiter
denied; when at least one denied, the middleware short-circuits with status
429 and reports as retry-after the maximum wait time over exactly the denying
limiters; and the path limiter consulted is a longest matching prefix. -/
theorem c5_rate_limit_deny_iff_any_and_max_wait (g p i : CheckOutcome) :
    (rate_limit_call g p i = none ↔ deniedWaits g p i = []) ∧
    (deniedWaits g p i ≠ [] →
      rate_limit_call g p i = some (429, (deniedWaits g p i).foldr max 0)) ∧
    (∀ (A : Type) (rules : List (String × A)) (path : String) (e : String × A),
      get_path_limiter_entry rules path = some e →
      strStartsWith path e.1 = true ∧
      ∀ q ∈ rules, strStartsWith path q.1 = true → strLen q.1 ≤ strLen e.1) := by
  refine ⟨?_, ?_, ?_⟩
  · cases g <;> cases p <;> cases i <;>
      simp [rate_limit_call, deniedWaits, CheckOutcome.isErr]
  · intro h
    cases g <;> cases p <;> cases i <;>
      simp [rate_limit_call, deniedWaits, CheckOutcome.isErr] at h ⊢ <;>
      omega
  · intro A rules path e he
    unfold get_path_limiter_entry at he
    have hmem := maxByKeyLast_mem (fun q => strLen q.1) _ e he
    have hmax := maxByKeyLast_is_max (fun q => strLen q.1) _ e he
    constructor
    · exact (List.mem_filter.mp hmem).2
    · intro q hq hstart
      exact hmax q (List.mem_filter.mpr ⟨hq, hstart⟩)

/-- Witness for C5: global denies with wait 3, no path limiter denial, IP
denies with wait 7; the reported retry-after is 7; and the longest-prefix
property at a concrete one-rule table. -/
theorem c5_rate_limit_witness :
    rate_limit_call (CheckOutcome.deny 3) CheckOutcome.allow
      (CheckOutcome.deny 7) = some (429, 7) ∧
    (strStartsWith "/api/users/1" "/api" = true ∧
      ∀ q ∈ [("/api", 0)], strStartsWith "/api/users/1" q.1 = true →
        strLen q.1 ≤ strLen "/api") := by
  constructor
  · have h := (c5_rate_limit_deny_iff_any_and_max_wait (CheckOutcome.deny 3)
      CheckOutcome.allow (CheckOutcome.deny 7)).2.1 (by decide)
    simpa using h
  · have h := (c5_rate_limit_deny_iff_any_and_max_wait CheckOutcome.allow
      CheckOutcome.allow CheckOutcome.allow).2.2 Nat [("/api", 0)]
      "/api/users/1" ("/api", 0) (by decide)
    exact h

/-- The proxy forwards an empty body whenever the request body is over the
10 MiB bound of `to_bytes`. -/
theorem forward_http_request_body_oversize (body : List Nat)
    (h : 1024 * 1024 * 10 < body.length) :
    forward_http_request_body body = [] := by
  unfold forward_http_request_body to_bytes
  rw [if_neg (by omega)]

/-- C6: a request body one byte over the 10 MiB bound is not rejected; the
`unwrap_or_default()` replaces it by an empty byte buffer and the proxy
forwards the request with that empty body, so no 413 is produced. -/
theorem c6_oversized_body_forwarded_with_empty_bytes :
    1024 * 1024 * 10 < (List.replicate (1024 * 1024 * 10 + 1) (0 : Nat)).length ∧
    forward_http_request_body (List.replicate (1024 * 1024 * 10 + 1) (0 : Nat)) = [] := by
  constructor
  · rw [List.length_replicate]
    omega
  · exact forward_http_request_body_oversize _ (by rw [List.length_replicate]; omega)

/-- C7: when the request path starts with any entry of the path whitelist,
`authenticate` forwards the request with no principal attached and never
returns an error — whatever auth scheme is enabled, whatever headers are
present and whatever the verification oracles would have answered. -/
theorem c7_whitelisted_path_bypasses_auth (cfg : AuthConfig)
    (verify_token : String → Except Error UserInfo)
    (parse_rfc3339 : String → Option Int) (now : Int)
    (path : String) (client_ip : Option String)
    (headers : List (String × String)) (query : Option String)
    (hw : ∃ p ∈ cfg.path_whitelist, strStartsWith path p = true) :
    authenticate cfg verify_token parse_rfc3339 now path client_ip headers query =
      Except.ok none := by
  unfold authenticate
  rw [if_pos]
  exact List.any_eq_true.mpr hw

/-- Witness for C7: JWT auth enabled, an Authorization header present, a
verifier that rejects every token — yet the whitelisted login path passes
with no principal. -/
theorem c7_whitelisted_path_bypasses_auth_witness :
    authenticate
      { cfgNoAuthScheme with
          jwt := { cfgNoAuthScheme.jwt with enabled := true } }
      (fun _ => Except.error Error.InvalidToken) (fun _ => none) 0
      "/api/auth/login" none [("Authorization", "Bearer bogus")] none =
      Except.ok none :=
  c7_whitelisted_path_bypasses_auth
    { cfgNoAuthScheme with jwt := { cfgNoAuthScheme.jwt with enabled := true } }
    (fun _ => Except.error Error.InvalidToken) (fun _ => none) 0
    "/api/auth/login" none [("Authorization", "Bearer bogus")] none
    (by decide)

/-- C9 counterexample: with every auth scheme disabled and a path outside the
whitelist, `authenticate` returns `Error::Unauthorized`, which
`impl IntoResponse for Error` renders as status 401 — not 503 as the claim
states. -/
theorem c9_counterexample_no_scheme_is_401_not_503 :
    authenticate cfgNoAuthScheme (fun _ => Except.error Error.InvalidToken)
      (fun _ => none) 0 "/api/users/42" none [] none =
      Except.error Error.Unauthorized ∧
    into_response_status Error.Unauthorized = 401 ∧
    into_response_status Error.Unauthorized ≠ 503 :=
  ⟨rfl, rfl, by decide⟩

/-- C9 amended: for every non-whitelisted request processed while no auth
scheme is enabled, the gateway answers `Error::Unauthorized`, rendered with
status 401. -/
theorem c9_no_scheme_enabled_gives_401 (cfg : AuthConfig)
    (verify_token : String → Except Error UserInfo)
    (parse_rfc3339 : String → Option Int) (now : Int)
    (path : String) (client_ip : Option String)
    (headers : List (String × String)) (query : Option String)
    (hw : ∀ p ∈ cfg.path_whitelist, strStartsWith path p = false)
    (hip : (match client_ip with
            | some ip => cfg.ip_whitelist.contains ip
            | none => false) = false)
    (hj : cfg.jwt.enabled = false) (ha : cfg.api_key.enabled = false)
    (ho : cfg.oauth2.enabled = false) :
    authenticate cfg verify_token parse_rfc3339 now path client_ip headers query =
      Except.error Error.Unauthorized ∧
    into_response_status Error.Unauthorized = 401 := by
  have h1 : cfg.path_whitelist.any (fun p => strStartsWith path p) = false := by
    rw [List.any_eq_false]
    intro p hp
    simp [hw p hp]
  constructor
  · unfold authenticate
    rw [h1, hip, hj, ha, ho]
    simp
  · rfl

/-- Witness for C9 at the all-disabled configuration and a user path. -/
theorem c9_no_scheme_enabled_gives_401_witness :
    authenticate cfgNoAuthScheme (fun _ => Except.error Error.InvalidToken)
      (fun _ => none) 0 "/api/users/7" (some "10.1.2.3") [] none =
      Except.error Error.Unauthorized ∧
    into_response_status Error.Unauthorized = 401 :=
  c9_no_scheme_enabled_gives_401 cfgNoAuthScheme
    (fun _ => Except.error Error.InvalidToken) (fun _ => none) 0
    "/api/users/7" (some "10.1.2.3") [] none
    (by decide) (by decide) rfl rfl rfl

/-- C10: a principal carrying role `admin` or `ADMIN` passes `authorize` for
every required-role list — the request is forwarded instead of being rejected
with `InsufficientPermissions`, even when no required role is among the
principal's roles. -/
theorem c10_admin_passes_every_role_requirement (u : UserInfo)
    (required_roles : List String)
    (h : "admin" ∈ u.roles ∨ "ADMIN" ∈ u.roles) :
    authorize (some u) required_roles = Except.ok () := by
  have hr : has_required_roles u.roles required_roles = true := by
    unfold has_required_roles
    rw [if_pos]
    rw [List.any_eq_true]
    cases h with
    | inl h => exact ⟨"admin", h, by simp⟩
    | inr h => exact ⟨"ADMIN", h, by simp⟩
  unfold authorize
  simp [hr]

/-- Witness for C10: an `ADMIN` principal passes a role requirement it does
not otherwise satisfy. -/
theorem c10_admin_passes_every_role_requirement_witness :
    authorize (some { user_id := 1, username := "root", roles := ["ADMIN"],
                      extra := [] }) ["editor"] = Except.ok () :=
  c10_admin_passes_every_role_requirement
    { user_id := 1, username := "root", roles := ["ADMIN"], extra := [] }
    ["editor"] (Or.inr (by simp))

end Gateway
